import Mathlib

/-!
Verification development for the `volvo_cars` Home Assistant integration
(`custom_components/volvo_cars/__init__.py`).

The Python module is embedded shallowly: configuration entries become a
structure, Python dicts become association lists over `String`, the per-entry
persisted stores become an association list from unique id to store data, and
async functions that may raise become functions into `Option`/`Except`.
A Python exception is modelled as `Option.none` or as `Except.error` carrying
the exception class.
-/

/-- Association-list lookup, modelling `k in d` / `d[k]` on a Python dict. -/
def lookupKV {α : Type} (m : List (String × α)) (k : String) : Option α :=
  match m with
  | [] => none
  | (k1, v) :: rest => if k1 = k then some v else lookupKV rest k

/-- Association-list insertion, modelling `d[k] = v` on a Python dict
(replaces the value when the key is present, appends otherwise). -/
def insertKV {α : Type} (m : List (String × α)) (k : String) (v : α) :
    List (String × α) :=
  match m with
  | [] => [(k, v)]
  | (k1, v1) :: rest =>
      if k1 = k then (k, v) :: rest else (k1, v1) :: insertKV rest k v

/-- Association-list removal, modelling `d.pop(k)` on a Python dict. -/
def eraseKV {α : Type} (m : List (String × α)) (k : String) :
    List (String × α) :=
  match m with
  | [] => []
  | (k1, v) :: rest =>
      if k1 = k then eraseKV rest k else (k1, v) :: eraseKV rest k

/-- A Python `dict[str, str]`: the `data` and `options` maps of a config entry. -/
abbrev KVMap := List (String × String)

/-- `homeassistant.const.CONF_ACCESS_TOKEN` (external library constant). -/
def CONF_ACCESS_TOKEN : String := "access_token"

/-- `homeassistant.const.CONF_PASSWORD` (external library constant). -/
def CONF_PASSWORD : String := "password"

/-- The literal `"refresh_token"` key used in `async_migrate_entry`. -/
def REFRESH_TOKEN_KEY : String := "refresh_token"

/-- Modelled from the spec: `const.py` is not part of the sources; the spec
names an option key for the fuel-consumption unit set during migration. -/
def OPT_FUEL_CONSUMPTION_UNIT : String := "fuel_consumption_unit"

/-- Modelled from the spec: `const.py` is not part of the sources; the spec
names a default unit value (liter per 100 km) set during migration. -/
def OPT_UNIT_LITER_PER_100KM : String := "l/100km"

namespace VolvoCarsFlowHandler

/-- Modelled from the spec: `config_flow.py` is not part of the sources.
The migration in `__init__.py` migrates version-1 entries, treats versions
above `VERSION` as downgrades from the future, and its newest minor-version
step is guarded by `minor_version < 3`, so the flow handler's current
version is 1.3. -/
def VERSION : Nat := 1

/-- Modelled from the spec: current minor version of the config flow,
the target of the `minor_version < 3` migration step. -/
def MINOR_VERSION : Nat := 3

end VolvoCarsFlowHandler

/-- The fields of a `ConfigEntry` read or written by `__init__.py`. -/
structure ConfigEntry where
  data : KVMap
  options : KVMap
  version : Nat
  minor_version : Nat
  unique_id : Option String
  deriving DecidableEq, Repr

/-- Modelled from the spec: `store.py` is not part of the sources; the spec
says the per-entry store "holds access/refresh tokens and the last
API-request-count reset timestamp". -/
structure StoreData where
  access_token : Option String
  refresh_token : Option String
  api_requests_reset_time : Option String
  deriving DecidableEq, Repr

instance : Inhabited StoreData := ⟨⟨none, none, none⟩⟩

/-- The persisted stores of all entries, keyed by the entry's `unique_id`
(spec: "at most one store per config entry"). -/
abbrev Stores := List (String × StoreData)

/-- Modelled from the spec: `VolvoCarsStoreManager.async_update` with token
keyword arguments persists the given access and refresh tokens in the store
keyed by `unique_id` ("updated on token refresh"). -/
def storeUpdateTokens (stores : Stores) (uid av rv : String) : Stores :=
  let cur := (lookupKV stores uid).getD default
  insertKV stores uid
    { cur with access_token := some av, refresh_token := some rv }

/-- Modelled from the spec: `VolvoCarsStoreManager.async_remove` deletes the
persisted store keyed by `unique_id` ("removed when the entry is removed"). -/
def storeRemove (stores : Stores) (uid : String) : Stores :=
  eraseKV stores uid

/-- `if CONF_PASSWORD in new_data: new_data.pop(CONF_PASSWORD)` from the
`minor_version < 3` migration step. -/
def popPasswordIfPresent (d : KVMap) : KVMap :=
  if (lookupKV d CONF_PASSWORD).isSome then eraseKV d CONF_PASSWORD else d

/-- The `entry.minor_version < 3` step of `async_migrate_entry`: if both token
keys are in `new_data`, assert `unique_id` is not `None` (`none` models the
`AssertionError`) and pop both tokens into the store via `async_update`; then
pop the password key if present. -/
def migrateMinorStep3 (stores : Stores) (uid? : Option String) (data : KVMap) :
    Option (KVMap × Stores) :=
  match lookupKV data CONF_ACCESS_TOKEN, lookupKV data REFRESH_TOKEN_KEY with
  | some av, some rv =>
      match uid? with
      | none => none
      | some uid =>
          some (popPasswordIfPresent
              (eraseKV (eraseKV data CONF_ACCESS_TOKEN) REFRESH_TOKEN_KEY),
            storeUpdateTokens stores uid av rv)
  | _, _ => some (popPasswordIfPresent data, stores)

/-- The outcome of `async_migrate_entry`: the returned boolean, the entry after
any `async_update_entry` call, and the persisted stores. -/
structure MigrateResult where
  returned : Bool
  entry : ConfigEntry
  stores : Stores
  deriving DecidableEq, Repr

/-- `async_migrate_entry` from `__init__.py`. `none` models an uncaught
exception (the `assert entry.unique_id is not None`). The
`_remove_old_entities` call in the `minor_version < 2` branch only touches the
host's entity registry, which is outside the modelled state. -/
def async_migrate_entry (stores : Stores) (entry : ConfigEntry) :
    Option MigrateResult :=
  if VolvoCarsFlowHandler.VERSION < entry.version then
    -- the user has downgraded from a future version
    some ⟨false, entry, stores⟩
  else if entry.version = 1 then
    let new_options :=
      if entry.minor_version < 2 then
        insertKV entry.options OPT_FUEL_CONSUMPTION_UNIT OPT_UNIT_LITER_PER_100KM
      else entry.options
    let step :=
      if entry.minor_version < 3 then
        migrateMinorStep3 stores entry.unique_id entry.data
      else some (entry.data, stores)
    match step with
    | none => none
    | some (new_data, stores1) =>
        some ⟨true,
          { entry with
            data := new_data
            options := new_options
            version := VolvoCarsFlowHandler.VERSION
            minor_version := VolvoCarsFlowHandler.MINOR_VERSION },
          stores1⟩
  else
    some ⟨true, entry, stores⟩

/-- Storage-level operations performed by `async_remove_entry`. -/
inductive StoreOp where
  | createManager (uid : String)
  | removeData (uid : String)
  deriving DecidableEq, Repr

/-- `async_remove_entry` from `__init__.py`: when `entry.unique_id` is truthy
(not `None` and not the empty string) it creates a store manager keyed by the
unique id and calls `async_remove`; otherwise it does nothing. Returns the
stores after the call together with the storage operations performed. -/
def async_remove_entry (stores : Stores) (entry : ConfigEntry) :
    Stores × List StoreOp :=
  match entry.unique_id with
  | some uid =>
      if uid = "" then (stores, [])
      else (storeRemove stores uid, [.createManager uid, .removeData uid])
  | none => (stores, [])

/-!
## The datetime model for `_async_reset_request_count_if_missed`

`datetime.fromisoformat` is embedded as a parser for the core ISO-8601 profile
the function consumes: `YYYY-MM-DD`, optionally followed by a `T`/`t`/space
separator and `HH:MM:SS`, optionally followed by a UTC offset (`Z`, `z` or
`±HH:MM`). An aware datetime is normalised to seconds since the Unix epoch;
a string without an offset yields a naive datetime, which Python refuses to
compare with the aware midnight (`TypeError`).
-/

/-- A Python `datetime`: its instant in seconds since the Unix epoch
(UTC-normalised when aware) and whether it carries a timezone. -/
structure PyDatetime where
  epochSeconds : Int
  aware : Bool
  deriving DecidableEq, Repr

/-- Python exception classes that the embedded functions can raise. -/
inductive PyError where
  | assertionError
  | valueError
  | typeError
  | frameworkError
  deriving DecidableEq, Repr

/-- Value of a decimal digit character, `none` on a non-digit. -/
def digitVal (c : Char) : Option Nat :=
  if c.isDigit then some (c.toNat - 48) else none

/-- Parse exactly two decimal digits. -/
def parse2 : List Char → Option (Nat × List Char)
  | a :: b :: rest => do
      let x ← digitVal a
      let y ← digitVal b
      pure (10 * x + y, rest)
  | _ => none

/-- Parse exactly four decimal digits. -/
def parse4 : List Char → Option (Nat × List Char)
  | a :: b :: c :: d :: rest => do
      let x ← digitVal a
      let y ← digitVal b
      let z ← digitVal c
      let w ← digitVal d
      pure (1000 * x + 100 * y + 10 * z + w, rest)
  | _ => none

/-- Consume one expected character. -/
def expectChar (c : Char) : List Char → Option (List Char)
  | x :: rest => if x = c then some rest else none
  | [] => none

/-- Gregorian leap-year test, as Python's `calendar.isleap`. -/
def isLeapYear (y : Nat) : Bool :=
  (y % 4 == 0 && y % 100 != 0) || y % 400 == 0

/-- Number of days in a month, used by `datetime.date` validation. -/
def daysInMonth (y m : Nat) : Nat :=
  if m = 2 then (if isLeapYear y then 29 else 28)
  else if m = 4 ∨ m = 6 ∨ m = 9 ∨ m = 11 then 30
  else 31

/-- Days from the Unix epoch to the civil date `y-m-d` (proleptic Gregorian). -/
def daysFromCivil (y m d : Int) : Int :=
  let y1 := if m ≤ 2 then y - 1 else y
  let era := (if 0 ≤ y1 then y1 else y1 - 399) / 400
  let yoe := y1 - era * 400
  let mp := (m + 9) % 12
  let doy := (153 * mp + 2) / 5 + d - 1
  let doe := yoe * 365 + yoe / 4 - yoe / 100 + doy
  era * 146097 + doe - 719468

/-- Seconds since the Unix epoch of the civil instant `y-m-d h:mi:s`. -/
def civilSeconds (y m d h mi s : Nat) : Int :=
  86400 * daysFromCivil (y : Int) (m : Int) (d : Int)
    + 3600 * (h : Int) + 60 * (mi : Int) + (s : Int)

/-- Parse `YYYY-MM-DD` and validate it as `datetime.date` does; yields
`(year, month, day, rest)`. -/
def parseDatePart (cs : List Char) : Option (Nat × Nat × Nat × List Char) :=
  match parse4 cs with
  | none => none
  | some (y, cs) =>
      match expectChar '-' cs with
      | none => none
      | some cs =>
          match parse2 cs with
          | none => none
          | some (mo, cs) =>
              match expectChar '-' cs with
              | none => none
              | some cs =>
                  match parse2 cs with
                  | none => none
                  | some (d, cs) =>
                      if 1 ≤ mo ∧ mo ≤ 12 ∧ 1 ≤ d ∧ d ≤ daysInMonth y mo then
                        some (y, mo, d, cs)
                      else none

/-- Parse `HH:MM:SS` and validate it as `datetime.time` does; yields
`(hour, minute, second, rest)`. -/
def parseTimePart (cs : List Char) : Option (Nat × Nat × Nat × List Char) :=
  match parse2 cs with
  | none => none
  | some (h, cs) =>
      match expectChar ':' cs with
      | none => none
      | some cs =>
          match parse2 cs with
          | none => none
          | some (mi, cs) =>
              match expectChar ':' cs with
              | none => none
              | some cs =>
                  match parse2 cs with
                  | none => none
                  | some (s, cs) =>
                      if h ≤ 23 ∧ mi ≤ 59 ∧ s ≤ 59 then some (h, mi, s, cs)
                      else none

/-- Parse the trailing UTC offset: `Z`, `z` or `±HH:MM` followed by the end of
the string; yields the offset in seconds. -/
def parseOffsetPart (tz : Char) (cs : List Char) : Option Int :=
  if tz = 'Z' ∨ tz = 'z' then
    if cs = [] then some 0 else none
  else if tz = '+' ∨ tz = '-' then
    match parseTimeNoSec cs with
    | none => none
    | some (oh, om, rest) =>
        if rest = [] ∧ oh ≤ 23 ∧ om ≤ 59 then
          let off : Int := 3600 * (oh : Int) + 60 * (om : Int)
          some (if tz = '+' then off else -off)
        else none
  else none
where
  /-- Parse `HH:MM`; yields `(hours, minutes, rest)`. -/
  parseTimeNoSec (cs : List Char) : Option (Nat × Nat × List Char) :=
    match parse2 cs with
    | none => none
    | some (oh, cs) =>
        match expectChar ':' cs with
        | none => none
        | some cs =>
            match parse2 cs with
            | none => none
            | some (om, cs) => some (oh, om, cs)

/-- `datetime.fromisoformat` on the character list of the input string. -/
def fromisoformatChars (cs : List Char) : Option PyDatetime :=
  match parseDatePart cs with
  | none => none
  | some (y, mo, d, cs) =>
      match cs with
      | [] => some ⟨civilSeconds y mo d 0 0 0, false⟩
      | sep :: cs =>
          if sep = 'T' ∨ sep = 't' ∨ sep = ' ' then
            match parseTimePart cs with
            | none => none
            | some (h, mi, s, cs) =>
                match cs with
                | [] => some ⟨civilSeconds y mo d h mi s, false⟩
                | tz :: cs =>
                    match parseOffsetPart tz cs with
                    | none => none
                    | some off => some ⟨civilSeconds y mo d h mi s - off, true⟩
          else none

/-- `datetime.fromisoformat`: `none` models the `ValueError` it raises on a
string outside the accepted format. -/
def fromisoformat (s : String) : Option PyDatetime :=
  fromisoformatChars s.toList

/-- The aware instant `datetime.combine(date(now.year, now.month, now.day),
time(0, 0, 0, tzinfo=UTC))` for a current UTC time `now` given in seconds
since the epoch: the most recent UTC midnight. -/
def mostRecentMidnight (now : Nat) : Int :=
  86400 * ((now / 86400 : Nat) : Int)

/-- `_async_reset_request_count_if_missed` from `__init__.py`, with the
nondeterministic `datetime.now(UTC)` passed in as `now` (seconds since the
epoch). Returns whether `coordinator.async_reset_request_count` was awaited;
`Except.error` models an uncaught exception: `ValueError` from
`fromisoformat`, `TypeError` from comparing a naive datetime with the aware
midnight. -/
def async_reset_request_count_if_missed (now : Nat)
    (last_reset_time : Option String) : Except PyError Bool :=
  match last_reset_time with
  | none => .ok false
  | some s =>
      if s = "" then .ok false
      else
        match fromisoformat s with
        | none => .error .valueError
        | some reset_time =>
            if reset_time.aware then
              .ok (decide (reset_time.epochSeconds < mostRecentMidnight now))
            else .error .typeError

/-- `async_setup_entry` from `__init__.py`. The entry's own code can raise
`AssertionError` (the `assert entry.unique_id is not None`) and whatever
`_async_reset_request_count_if_missed` raises; the awaited external calls
(token refresh scheduling, the coordinator's first refresh, forwarding the
entry to the platforms) are modelled from the spec: each either succeeds or
raises a framework-defined exception (spec section 7), their outcomes passed
in as booleans. `storedResetTime` is `store.data["api_requests_reset_time"]`
after `store.async_load`. Returns `.ok true` on success. -/
def async_setup_entry (entry : ConfigEntry) (storedResetTime : Option String)
    (now : Nat) (scheduleRefreshOk firstRefreshOk forwardOk : Bool) :
    Except PyError Bool :=
  match entry.unique_id with
  | none => .error .assertionError
  | some _ =>
      if !scheduleRefreshOk then .error .frameworkError
      else
        match async_reset_request_count_if_missed now storedResetTime with
        | .error e => .error e
        | .ok _ =>
            if !firstRefreshOk then .error .frameworkError
            else if !forwardOk then .error .frameworkError
            else .ok true

/-- Looking up a key after erasing it yields nothing. -/
theorem lookupKV_eraseKV_self {α : Type} (m : List (String × α)) (k : String) :
    lookupKV (eraseKV m k) k = none := by
  induction m with
  | nil => rfl
  | cons p rest ih =>
      obtain ⟨k1, v⟩ := p
      by_cases h : k1 = k
      · simpa [eraseKV, h] using ih
      · simpa [eraseKV, lookupKV, h] using ih

/-- Erasing one key leaves lookups of other keys unchanged. -/
theorem lookupKV_eraseKV_ne {α : Type} (m : List (String × α)) (k k' : String)
    (h : k' ≠ k) : lookupKV (eraseKV m k) k' = lookupKV m k' := by
  induction m with
  | nil => rfl
  | cons p rest ih =>
      obtain ⟨k1, v⟩ := p
      by_cases h1 : k1 = k
      · have h3 : ¬ k = k' := fun hc => h hc.symm
        simp [eraseKV, lookupKV, h1, h3, ih]
      · by_cases h2 : k1 = k'
        · simp [eraseKV, lookupKV, h1, h2, h]
        · simp [eraseKV, lookupKV, h1, h2, ih]

/-- Looking up a key right after inserting it yields the inserted value. -/
theorem lookupKV_insertKV_self {α : Type} (m : List (String × α)) (k : String)
    (v : α) : lookupKV (insertKV m k v) k = some v := by
  induction m with
  | nil => simp [insertKV, lookupKV]
  | cons p rest ih =>
      obtain ⟨k1, v1⟩ := p
      by_cases h : k1 = k
      · simp [insertKV, lookupKV, h]
      · simp [insertKV, lookupKV, h, ih]

/-- After the password-popping step the password key is absent. -/
theorem lookupKV_popPasswordIfPresent_password (d : KVMap) :
    lookupKV (popPasswordIfPresent d) CONF_PASSWORD = none := by
  unfold popPasswordIfPresent
  by_cases h : (lookupKV d CONF_PASSWORD).isSome
  · rw [if_pos h]
    exact lookupKV_eraseKV_self _ _
  · rw [if_neg h]
    exact Option.not_isSome_iff_eq_none.mp h

/-- The password-popping step leaves other keys unchanged. -/
theorem lookupKV_popPasswordIfPresent_ne (d : KVMap) (k : String)
    (h : k ≠ CONF_PASSWORD) :
    lookupKV (popPasswordIfPresent d) k = lookupKV d k := by
  unfold popPasswordIfPresent
  by_cases h1 : (lookupKV d CONF_PASSWORD).isSome
  · rw [if_pos h1]
    exact lookupKV_eraseKV_ne _ _ _ h
  · rw [if_neg h1]

/-- Characterisation of `async_migrate_entry` on a version-1 entry with
`minor_version < 3`: the result applies `migrateMinorStep3`, sets the default
fuel unit when `minor_version < 2`, and stamps version 1.3. -/
theorem migrate_v1_lt3_eq (stores : Stores) (e : ConfigEntry)
    (hv : e.version = 1) (hm : e.minor_version < 3) :
    async_migrate_entry stores e =
      match migrateMinorStep3 stores e.unique_id e.data with
      | none => none
      | some (nd, s1) =>
          some ⟨true,
            { e with
              data := nd
              options :=
                if e.minor_version < 2 then
                  insertKV e.options OPT_FUEL_CONSUMPTION_UNIT
                    OPT_UNIT_LITER_PER_100KM
                else e.options
              version := 1
              minor_version := 3 },
            s1⟩ := by
  unfold async_migrate_entry
  rw [hv]
  simp [VolvoCarsFlowHandler.VERSION, VolvoCarsFlowHandler.MINOR_VERSION, hm]

/-- Characterisation of `async_migrate_entry` on a version-1 entry whose
`minor_version` is already at least 3: only the version stamp is rewritten. -/
theorem migrate_v1_ge3_eq (stores : Stores) (e : ConfigEntry)
    (hv : e.version = 1) (hm : ¬ e.minor_version < 3) :
    async_migrate_entry stores e =
      some ⟨true, { e with version := 1, minor_version := 3 }, stores⟩ := by
  have h2 : ¬ e.minor_version < 2 := by omega
  unfold async_migrate_entry
  rw [hv]
  simp [VolvoCarsFlowHandler.VERSION, VolvoCarsFlowHandler.MINOR_VERSION, hm, h2]

/-- When both token keys are present and a unique id is given,
`migrateMinorStep3` erases the tokens from the data (then pops the password)
and writes them to the store via `storeUpdateTokens`. -/
theorem migrateMinorStep3_tokens (stores : Stores) (uid : String) (data : KVMap)
    (av rv : String)
    (hat : lookupKV data CONF_ACCESS_TOKEN = some av)
    (hrt : lookupKV data REFRESH_TOKEN_KEY = some rv) :
    migrateMinorStep3 stores (some uid) data =
      some (popPasswordIfPresent
          (eraseKV (eraseKV data CONF_ACCESS_TOKEN) REFRESH_TOKEN_KEY),
        storeUpdateTokens stores uid av rv) := by
  unfold migrateMinorStep3
  rw [hat, hrt]

/-- Whenever `migrateMinorStep3` completes, the password key is absent from
the resulting data. -/
theorem migrateMinorStep3_password (stores : Stores) (uid? : Option String)
    (data d : KVMap) (s : Stores)
    (h : migrateMinorStep3 stores uid? data = some (d, s)) :
    lookupKV d CONF_PASSWORD = none := by
  unfold migrateMinorStep3 at h
  split at h
  · rename_i av rv _ _
    match uid?, h with
    | some uid, h =>
        injection h with h1
        have h2 : d = popPasswordIfPresent
            (eraseKV (eraseKV data CONF_ACCESS_TOKEN) REFRESH_TOKEN_KEY) :=
          congrArg Prod.fst h1.symm
        rw [h2]
        exact lookupKV_popPasswordIfPresent_password _
  · injection h with h1
    have h2 : d = popPasswordIfPresent data := congrArg Prod.fst h1.symm
    rw [h2]
    exact lookupKV_popPasswordIfPresent_password _

/-- Counterexample to claim C1 as stated: a version-1.1 entry whose data holds
both token keys but whose `unique_id` is `None` makes `async_migrate_entry`
fail on `assert entry.unique_id is not None` instead of returning `True`. -/
theorem migrate_tokens_unique_id_cex :
    async_migrate_entry []
      ⟨[(CONF_ACCESS_TOKEN, "at1"), (REFRESH_TOKEN_KEY, "rt1")], [], 1, 1,
        none⟩ = none := by decide

/-- C1 (amended with a non-`None` `unique_id`): for every config entry with
version 1 and `minor_version < 3` whose data contains both the access-token
and the refresh-token key and whose `unique_id` is set, `async_migrate_entry`
succeeds, returns `True`, removes both keys from the entry's data and stores
both token values in the per-entry store keyed by the unique id. -/
theorem migrate_moves_tokens_into_store (stores : Stores) (e : ConfigEntry)
    (uid av rv : String)
    (hv : e.version = 1) (hm : e.minor_version < 3)
    (hu : e.unique_id = some uid)
    (hat : lookupKV e.data CONF_ACCESS_TOKEN = some av)
    (hrt : lookupKV e.data REFRESH_TOKEN_KEY = some rv) :
    ∃ r, async_migrate_entry stores e = some r ∧
      r.returned = true ∧
      lookupKV r.entry.data CONF_ACCESS_TOKEN = none ∧
      lookupKV r.entry.data REFRESH_TOKEN_KEY = none ∧
      ∃ sd, lookupKV r.stores uid = some sd ∧
        sd.access_token = some av ∧ sd.refresh_token = some rv := by
  rw [migrate_v1_lt3_eq stores e hv hm, hu,
    migrateMinorStep3_tokens stores uid e.data av rv hat hrt]
  refine ⟨_, rfl, rfl, ?_, ?_, ?_⟩
  · rw [lookupKV_popPasswordIfPresent_ne _ _ (by decide),
      lookupKV_eraseKV_ne _ _ _ (by decide)]
    exact lookupKV_eraseKV_self _ _
  · rw [lookupKV_popPasswordIfPresent_ne _ _ (by decide)]
    exact lookupKV_eraseKV_self _ _
  · exact ⟨_, lookupKV_insertKV_self _ _ _, rfl, rfl⟩

/-- C5: for every config entry with version 1 and `minor_version < 3` whose
data contains the password key, whenever `async_migrate_entry` completes the
password key is absent from the entry's data. -/
theorem migrate_removes_password (stores : Stores) (e : ConfigEntry)
    (r : MigrateResult)
    (hv : e.version = 1) (hm : e.minor_version < 3)
    (_hpw : (lookupKV e.data CONF_PASSWORD).isSome = true)
    (h : async_migrate_entry stores e = some r) :
    lookupKV r.entry.data CONF_PASSWORD = none := by
  rw [migrate_v1_lt3_eq stores e hv hm] at h
  cases hstep : migrateMinorStep3 stores e.unique_id e.data with
  | none => rw [hstep] at h; cases h
  | some p =>
      obtain ⟨nd, s1⟩ := p
      rw [hstep] at h
      injection h with h2
      subst h2
      exact migrateMinorStep3_password stores e.unique_id e.data nd s1 hstep

/-- C6: for every config entry with version 1 and `minor_version < 2`,
whenever `async_migrate_entry` completes it has mapped the
fuel-consumption-unit option to the default liter-per-100km value. -/
theorem migrate_sets_default_fuel_unit (stores : Stores) (e : ConfigEntry)
    (r : MigrateResult)
    (hv : e.version = 1) (hm : e.minor_version < 2)
    (h : async_migrate_entry stores e = some r) :
    r.returned = true ∧
    lookupKV r.entry.options OPT_FUEL_CONSUMPTION_UNIT =
      some OPT_UNIT_LITER_PER_100KM := by
  rw [migrate_v1_lt3_eq stores e hv (by omega)] at h
  cases hstep : migrateMinorStep3 stores e.unique_id e.data with
  | none => rw [hstep] at h; cases h
  | some p =>
      obtain ⟨nd, s1⟩ := p
      rw [hstep] at h
      injection h with h2
      subst h2
      refine ⟨rfl, ?_⟩
      simp only [hm, if_pos]
      exact lookupKV_insertKV_self _ _ _

/-- C3: migration is monotonic - `async_migrate_entry` never decreases the
entry's version, and on an entry whose version exceeds
`VolvoCarsFlowHandler.VERSION` (a downgrade from a future version) it returns
`False` leaving the entry and the stores unmodified. -/
theorem migrate_monotonic (stores : Stores) (e : ConfigEntry)
    (r : MigrateResult)
    (h : async_migrate_entry stores e = some r) :
    e.version ≤ r.entry.version ∧
    (VolvoCarsFlowHandler.VERSION < e.version →
      r = ⟨false, e, stores⟩) := by
  by_cases h1 : VolvoCarsFlowHandler.VERSION < e.version
  · unfold async_migrate_entry at h
    rw [if_pos h1] at h
    injection h with h2
    subst h2
    exact ⟨le_refl _, fun _ => rfl⟩
  · refine ⟨?_, fun hc => absurd hc h1⟩
    by_cases h2 : e.version = 1
    · by_cases h3 : e.minor_version < 3
      · rw [migrate_v1_lt3_eq stores e h2 h3] at h
        cases hstep : migrateMinorStep3 stores e.unique_id e.data with
        | none => rw [hstep] at h; cases h
        | some p =>
            obtain ⟨nd, s1⟩ := p
            rw [hstep] at h
            injection h with h4
            subst h4
            simp [h2]
      · rw [migrate_v1_ge3_eq stores e h2 h3] at h
        injection h with h4
        subst h4
        simp [h2]
    · unfold async_migrate_entry at h
      rw [if_neg h1, if_neg h2] at h
      injection h with h4
      subst h4
      exact le_refl _

/-- Counterexample to claim C2 as stated: an entry whose version already
equals `VolvoCarsFlowHandler.VERSION` but whose `minor_version` is 1 is not
left unchanged by `async_migrate_entry` - the run returns `True` but adds the
default fuel-unit option and bumps the minor version. -/
theorem migrate_version_eq_not_unchanged_cex :
    (⟨[], [], 1, 1, none⟩ : ConfigEntry).version =
        VolvoCarsFlowHandler.VERSION ∧
    async_migrate_entry [] ⟨[], [], 1, 1, none⟩ =
      some ⟨true,
        ⟨[], [(OPT_FUEL_CONSUMPTION_UNIT, OPT_UNIT_LITER_PER_100KM)], 1, 3,
          none⟩, []⟩ ∧
    (⟨[], [(OPT_FUEL_CONSUMPTION_UNIT, OPT_UNIT_LITER_PER_100KM)], 1, 3,
        none⟩ : ConfigEntry) ≠ ⟨[], [], 1, 1, none⟩ := by
  refine ⟨rfl, by decide, by decide⟩

/-- C2 (amended to entries at the current version and minor version, the state
produced by a successful migration): `async_migrate_entry` returns `True` and
leaves the entry's data, options, version, minor version and the stores
unchanged. -/
theorem migrate_idempotent_at_current_version (stores : Stores)
    (e : ConfigEntry)
    (hv : e.version = VolvoCarsFlowHandler.VERSION)
    (hm : e.minor_version = VolvoCarsFlowHandler.MINOR_VERSION) :
    async_migrate_entry stores e = some ⟨true, e, stores⟩ := by
  obtain ⟨d, o, v, mv, u⟩ := e
  simp only [VolvoCarsFlowHandler.VERSION, VolvoCarsFlowHandler.MINOR_VERSION] at hv hm
  subst hv
  subst hm
  simp [async_migrate_entry, VolvoCarsFlowHandler.VERSION,
    VolvoCarsFlowHandler.MINOR_VERSION]

/-- Witness for C1: a concrete version-1.1 entry carrying both tokens. -/
theorem migrate_moves_tokens_into_store_witness :
    ∃ r, async_migrate_entry []
        ⟨[(CONF_ACCESS_TOKEN, "at1"), (REFRESH_TOKEN_KEY, "rt1")], [], 1, 1,
          some "U"⟩ = some r ∧
      r.returned = true ∧
      lookupKV r.entry.data CONF_ACCESS_TOKEN = none ∧
      lookupKV r.entry.data REFRESH_TOKEN_KEY = none ∧
      ∃ sd, lookupKV r.stores "U" = some sd ∧
        sd.access_token = some "at1" ∧ sd.refresh_token = some "rt1" :=
  migrate_moves_tokens_into_store [] _ "U" "at1" "rt1" rfl (by decide) rfl
    (by decide) (by decide)

/-- Witness for C2: a concrete version-1.3 entry is left untouched. -/
theorem migrate_idempotent_at_current_version_witness :
    async_migrate_entry [("U", ⟨some "a", some "r", none⟩)]
        ⟨[("vin", "V")], [("o", "x")], 1, 3, some "U"⟩ =
      some ⟨true, ⟨[("vin", "V")], [("o", "x")], 1, 3, some "U"⟩,
        [("U", ⟨some "a", some "r", none⟩)]⟩ :=
  migrate_idempotent_at_current_version _ _ rfl rfl

/-- Witness for C3: a version-2 entry is rejected unmodified. -/
theorem migrate_monotonic_witness :
    (⟨[("k", "v")], [], 2, 0, none⟩ : ConfigEntry).version ≤
      (MigrateResult.entry
        ⟨false, ⟨[("k", "v")], [], 2, 0, none⟩, []⟩).version ∧
    (VolvoCarsFlowHandler.VERSION <
        (⟨[("k", "v")], [], 2, 0, none⟩ : ConfigEntry).version →
      (⟨false, ⟨[("k", "v")], [], 2, 0, none⟩, []⟩ : MigrateResult) =
        ⟨false, ⟨[("k", "v")], [], 2, 0, none⟩, []⟩) :=
  migrate_monotonic [] _ _ (by decide)

/-- Witness for C5: a concrete version-1.1 entry with a password field. -/
theorem migrate_removes_password_witness :
    lookupKV (MigrateResult.entry
      ⟨true,
        ⟨[], [(OPT_FUEL_CONSUMPTION_UNIT, OPT_UNIT_LITER_PER_100KM)], 1, 3,
          none⟩, []⟩).data CONF_PASSWORD = none :=
  migrate_removes_password [] ⟨[(CONF_PASSWORD, "p")], [], 1, 1, none⟩ _ rfl
    (by decide) (by decide) (by decide)

/-- Witness for C6: a concrete version-1.1 entry receives the default. -/
theorem migrate_sets_default_fuel_unit_witness :
    (⟨true,
      ⟨[], [(OPT_FUEL_CONSUMPTION_UNIT, OPT_UNIT_LITER_PER_100KM)], 1, 3,
        some "U"⟩, []⟩ : MigrateResult).returned = true ∧
    lookupKV (MigrateResult.entry
      ⟨true,
        ⟨[], [(OPT_FUEL_CONSUMPTION_UNIT, OPT_UNIT_LITER_PER_100KM)], 1, 3,
          some "U"⟩, []⟩).options OPT_FUEL_CONSUMPTION_UNIT =
      some OPT_UNIT_LITER_PER_100KM :=
  migrate_sets_default_fuel_unit [] ⟨[], [], 1, 1, some "U"⟩ _ rfl (by decide)
    (by decide)

/-- C7: for every config entry with a non-`None`, non-empty `unique_id`,
`async_remove_entry` creates a store manager keyed by the unique id, calls
`async_remove` on it, and afterwards no store persists under that key. -/
theorem remove_entry_removes_store (stores : Stores) (e : ConfigEntry)
    (uid : String) (hu : e.unique_id = some uid) (hne : uid ≠ "") :
    (async_remove_entry stores e).2 =
      [.createManager uid, .removeData uid] ∧
    lookupKV (async_remove_entry stores e).1 uid = none := by
  obtain ⟨d, o, v, mv, u⟩ := e
  simp only at hu
  subst hu
  simp only [async_remove_entry]
  rw [if_neg hne]
  exact ⟨rfl, lookupKV_eraseKV_self _ _⟩

/-- Witness for C7: removing a concrete entry deletes its store. -/
theorem remove_entry_removes_store_witness :
    (async_remove_entry [("U", ⟨some "a", some "r", none⟩)]
        ⟨[], [], 1, 3, some "U"⟩).2 =
      [.createManager "U", .removeData "U"] ∧
    lookupKV (async_remove_entry [("U", ⟨some "a", some "r", none⟩)]
        ⟨[], [], 1, 3, some "U"⟩).1 "U" = none :=
  remove_entry_removes_store _ _ "U" rfl (by decide)

/-- C9: for every config entry whose `unique_id` is `None` or the empty
string, `async_remove_entry` is a no-op on persisted storage: it performs no
storage operation and leaves the stores unchanged. -/
theorem remove_entry_noop_without_unique_id (stores : Stores)
    (e : ConfigEntry) (hu : e.unique_id = none ∨ e.unique_id = some "") :
    async_remove_entry stores e = (stores, []) := by
  obtain ⟨d, o, v, mv, u⟩ := e
  simp only at hu
  rcases hu with hu | hu
  · subst hu
    rfl
  · subst hu
    rfl

/-- Witness for C9: an entry without a unique id leaves storage untouched. -/
theorem remove_entry_noop_without_unique_id_witness :
    async_remove_entry [("U", ⟨some "a", some "r", none⟩)]
        ⟨[], [], 1, 3, none⟩ =
      ([("U", ⟨some "a", some "r", none⟩)], []) :=
  remove_entry_noop_without_unique_id _ _ (Or.inl rfl)

/-- C4: for every stored reset timestamp that parses to an aware instant
strictly before the most recent UTC midnight,
`_async_reset_request_count_if_missed` invokes the coordinator's
request-count reset, and for every timestamp at or after that midnight it
does not. -/
theorem reset_request_count_catchup (now : Nat) (s : String) (dt : PyDatetime)
    (hp : fromisoformat s = some dt) (ha : dt.aware = true) :
    (dt.epochSeconds < mostRecentMidnight now →
      async_reset_request_count_if_missed now (some s) = .ok true) ∧
    (mostRecentMidnight now ≤ dt.epochSeconds →
      async_reset_request_count_if_missed now (some s) = .ok false) := by
  have hs : ¬ (s = "") := by
    intro hc
    rw [hc] at hp
    simp [fromisoformat, fromisoformatChars, parseDatePart, parse4] at hp
  constructor
  · intro hlt
    simp [async_reset_request_count_if_missed, hs, hp, ha, hlt]
  · intro hle
    have hnlt : ¬ dt.epochSeconds < mostRecentMidnight now := not_lt.mpr hle
    simp [async_reset_request_count_if_missed, hs, hp, ha, hnlt]

/-- Witness for C4: a timestamp one day before `now`'s midnight triggers the
reset. -/
theorem reset_request_count_catchup_witness :
    async_reset_request_count_if_missed 200000
      (some "1970-01-02T00:00:00+00:00") = .ok true :=
  (reset_request_count_catchup 200000 "1970-01-02T00:00:00+00:00"
    ⟨86400, true⟩ (by decide) rfl).1 (by decide)

/-- C10: the stored reset-timestamp parse is unguarded - the non-empty,
non-ISO-8601 string "x" makes `_async_reset_request_count_if_missed` raise
`ValueError` regardless of the current time, so the error branch is
reachable. -/
theorem reset_parse_unguarded :
    ("x" : String) ≠ "" ∧
    ∀ now : Nat, async_reset_request_count_if_missed now (some "x") =
      .error .valueError := by
  refine ⟨by decide, fun now => ?_⟩
  rfl

/-- Counterexample to claim C8 as stated: on an entry whose `unique_id` is
`None`, `async_setup_entry` raises a bare Python `AssertionError`, which is
not a framework-defined exception. -/
theorem setup_raises_assertion_error_cex :
    async_setup_entry ⟨[], [], 1, 3, none⟩ none 0 true true true =
      .error .assertionError ∧
    PyError.assertionError ≠ PyError.frameworkError :=
  ⟨rfl, by decide⟩

/-- C8 (amended to entries with a set `unique_id` and a stored reset timestamp
the reset check accepts): every failure of `async_setup_entry` is a
framework-defined exception. -/
theorem setup_failures_are_framework (e : ConfigEntry) (t : Option String)
    (now : Nat) (a b c : Bool) (uid : String) (bl : Bool) (err : PyError)
    (hu : e.unique_id = some uid)
    (hreset : async_reset_request_count_if_missed now t = .ok bl)
    (h : async_setup_entry e t now a b c = .error err) :
    err = .frameworkError := by
  obtain ⟨d, o, v, mv, u⟩ := e
  simp only at hu
  subst hu
  simp only [async_setup_entry] at h
  rw [hreset] at h
  cases a <;> cases b <;> cases c <;> simp_all

/-- Witness for C8: a failing platform-forward yields a framework error. -/
theorem setup_failures_are_framework_witness :
    async_setup_entry ⟨[], [], 1, 3, some "U"⟩ none 0 true true false =
      .error .frameworkError ∧
    PyError.frameworkError = PyError.frameworkError :=
  ⟨rfl, setup_failures_are_framework ⟨[], [], 1, 3, some "U"⟩ none 0 true true
    false "U" false .frameworkError rfl rfl rfl⟩
